import Mathlib

/-!
Shallow embedding of the CasaFlow loan-evaluation engine.

The self-contained path (`analyzeApplication` and its helpers) embeds
`src/services/ai_analysis_engine.py` (class `CasaFlowAIAnalyzer`); the
integration path (`processApplication` and its helpers) embeds
`src/services/application_processor.py` (class `ApplicationProcessor`).
Monetary and ratio arithmetic is modelled over `ℚ` (the source mixes Python
`Decimal` and exact-literal floats; the thresholds and rates used are exact
decimal fractions, which `ℚ` represents exactly).
-/

namespace CasaFlow

/-- Severity values used by rejection reasons ('Low', 'Medium', 'High',
'Critical' in the source). -/
inductive Severity where
  | Low
  | Medium
  | High
  | Critical
deriving DecidableEq

/-- Final statuses of the self-contained analysis ('APPROVED', 'REJECTED',
'UNDER_REVIEW' strings in the source; 'MANUAL_REVIEW' appears only in the
integration path, where status is kept as a string). -/
inductive AnalysisStatus where
  | APPROVED
  | REJECTED
  | UNDER_REVIEW
deriving DecidableEq

/-- Risk levels of the self-contained analysis. -/
inductive AnalysisRiskLevel where
  | LOW
  | MEDIUM
  | HIGH
  | VERY_HIGH
deriving DecidableEq

structure RejectionReason where
  factor : String
  severity : Severity
  description : String
  impact : String
deriving DecidableEq

structure Recommendation where
  action : String
  priority : String
  description : String
  timeline : String
deriving DecidableEq

/-- Polymorphic alternative-offer record: the source builds dicts whose keys
vary per offer type, modelled here with optional fields. -/
structure AlternativeOffer where
  type : String
  amount : ℚ
  tenure : Option String := none
  emi : Option ℚ := none
  interest_rate : Option String := none
  reason : Option String := none
  max_ltv : Option String := none
  purpose : Option String := none
  features : Option (List String) := none
  improvement : Option String := none
deriving DecidableEq

/-- The shared analysis accumulator dict created at the top of
`analyze_application`. -/
structure AnalysisResult where
  rejection_reasons : List RejectionReason
  recommendations : List Recommendation
  alternative_offers : List AlternativeOffer
  financial_health_score : ℤ
  generated_explanation : String
  status : AnalysisStatus
  risk_level : AnalysisRiskLevel
deriving DecidableEq

/-- The `application_data` input dict. Absent numeric fields are read with
default 0 in the source (`.get(k, 0)`), so they are modelled as plain values
with 0 standing for "absent"; `cibil_score` is read both with a `None` check
and with default 0, so it is kept as an `Option`. -/
structure AppData where
  cibil_score : Option ℤ := none
  monthly_salary : ℚ := 0
  existing_emi : ℚ := 0
  loan_amount : ℚ := 0
  property_valuation : ℚ := 0
  is_non_agricultural : Bool := false
  is_rented : Bool := false
  first_name : String := ""
  last_name : String := ""
  company_name : String := ""
deriving DecidableEq

/-! ### Number formatting helpers

Python's `format` on `Decimal`/`float` with `.0f`, `,.0f` and `.1%` rounds
half-to-even; these helpers model that rounding over `ℚ`. -/

/-- Floor of a rational, computed by floored integer division. -/
def ratFloor (q : ℚ) : ℤ :=
  Int.fdiv q.num (q.den : ℤ)

/-- Round half-to-even to an integer (Python formatting default). -/
def roundHalfEven (q : ℚ) : ℤ :=
  let f := ratFloor q
  let r := q - (f : ℚ)
  if r < 1/2 then f
  else if (1 : ℚ)/2 < r then f + 1
  else if f % 2 = 0 then f else f + 1

/-- Format with no decimal places, as in Python `.0f`. -/
def fmtF0 (q : ℚ) : String :=
  toString (roundHalfEven q)

/-- Insert thousands separators into a reversed digit list. -/
def commaGroupRev : List Char → List Char
  | a :: b :: c :: d :: rest => a :: b :: c :: ',' :: commaGroupRev (d :: rest)
  | l => l

/-- Format with thousands separators and no decimal places, as in Python
`,.0f`. -/
def commaFmt (q : ℚ) : String :=
  let n := roundHalfEven q
  (if n < 0 then "-" else "")
    ++ String.mk ((commaGroupRev (toString n.natAbs).toList.reverse).reverse)

/-- Format as a percentage with one decimal place, as in Python `.1%`. -/
def pct1Fmt (q : ℚ) : String :=
  let t := roundHalfEven (q * 1000)
  (if t < 0 then "-" else "")
    ++ toString (t.natAbs / 10) ++ "." ++ toString (t.natAbs % 10) ++ "%"

/-! ### Self-contained analyzer (`CasaFlowAIAnalyzer`) -/

/-- `risk_thresholds['cibil_min']`. -/
def cibilMin : ℤ := 750

/-- `risk_thresholds['loan_to_value_max']` (the float literal 0.8, exactly
4/5 after the source's `Decimal(str(0.8))` conversion). -/
def ltvMax : ℚ := 4/5

/-- The accumulator as initialized at the top of `analyze_application`. -/
def initialAnalysis : AnalysisResult :=
  { rejection_reasons := []
    recommendations := []
    alternative_offers := []
    financial_health_score := 0
    generated_explanation := ""
    status := .APPROVED
    risk_level := .LOW }

/-- The High-severity finding and recommendation emitted when the CIBIL
score is missing or below 10. -/
def addCreditHistoryFindings (res : AnalysisResult) : AnalysisResult :=
  { res with
    rejection_reasons := res.rejection_reasons ++
      [{ factor := "Credit History"
         severity := .High
         description := "Unable to verify credit history or insufficient credit data"
         impact := "Cannot assess repayment behavior" }]
    recommendations := res.recommendations ++
      [{ action := "Build Credit History"
         priority := "High"
         description := "Start with secured credit card and make timely payments"
         timeline := "6-12 months" }] }

/-- `_check_credit_profile`. -/
def checkCreditProfile (a : AppData) (res : AnalysisResult) : AnalysisResult :=
  match a.cibil_score with
  | none => addCreditHistoryFindings res
  | some c =>
    if c < 10 then addCreditHistoryFindings res
    else if c < cibilMin then
      { res with
        rejection_reasons := res.rejection_reasons ++
          [{ factor := "Credit Score"
             severity := .Medium
             description := "CIBIL score of " ++ toString c
               ++ " below minimum requirement of " ++ toString cibilMin
             impact := "Higher risk of default" }]
        recommendations := res.recommendations ++
          [{ action := "Improve Credit Score"
             priority := "High"
             description := "Pay existing debts on time and reduce credit utilization"
             timeline := "3-6 months" }] }
    else res

/-- `monthly_salary * Decimal('0.5')`. -/
def affordableEmi (a : AppData) : ℚ :=
  a.monthly_salary * (1/2)

/-- `affordable_emi - existing_emi`. -/
def totalEmiObligation (a : AppData) : ℚ :=
  affordableEmi a - a.existing_emi

/-- `Decimal('0.085') / 12`. -/
def monthlyInterest : ℚ := (85/1000) / 12

/-- Fixed 60-month tenure. -/
def tenureMonths : ℕ := 60

/-- EMI formula `P * r * (1+r)^n / ((1+r)^n - 1)` at the fixed rate and
tenure. -/
def emiFor (principal : ℚ) : ℚ :=
  principal * monthlyInterest * (1 + monthlyInterest) ^ tenureMonths
    / ((1 + monthlyInterest) ^ tenureMonths - 1)

/-- `calculated_emi` for the requested loan amount. -/
def calculatedEmi (a : AppData) : ℚ :=
  emiFor a.loan_amount

/-- `suggested_principal`: the EMI formula inverted for the given EMI at the
same rate and tenure. -/
def suggestedPrincipal (t : ℚ) : ℚ :=
  t * ((1 + monthlyInterest) ^ tenureMonths - 1)
    / (monthlyInterest * (1 + monthlyInterest) ^ tenureMonths)

/-- The "Reduced Loan Amount" offer appended by the affordability check. -/
def reducedLoanOffer (a : AppData) : AlternativeOffer :=
  { type := "Reduced Loan Amount"
    amount := suggestedPrincipal (totalEmiObligation a)
    tenure := some "60 months"
    emi := some (totalEmiObligation a)
    interest_rate := some "8.5%"
    reason := some "Better aligned with your income and existing obligations" }

/-- `_check_loan_affordability`. -/
def checkLoanAffordability (a : AppData) (res : AnalysisResult) : AnalysisResult :=
  if totalEmiObligation a ≤ 0 then
    { res with
      rejection_reasons := res.rejection_reasons ++
        [{ factor := "Debt Burden"
           severity := .High
           description := "Existing EMI obligations exceed affordable limits"
           impact := "No capacity for additional loan" }] }
  else if calculatedEmi a > totalEmiObligation a then
    { res with
      rejection_reasons := res.rejection_reasons ++
        [{ factor := "Loan Affordability"
           severity := .Medium
           description := "Requested loan EMI (₹" ++ fmtF0 (calculatedEmi a)
             ++ ") exceeds affordable limit (₹" ++ fmtF0 (totalEmiObligation a) ++ ")"
           impact := "High debt burden ratio" }]
      alternative_offers := res.alternative_offers ++ [reducedLoanOffer a] }
  else res

/-- `_check_loan_to_value_ratio`. -/
def checkLoanToValue (a : AppData) (res : AnalysisResult) : AnalysisResult :=
  if a.property_valuation > 0 then
    let ltv := a.loan_amount / a.property_valuation
    if ltv > ltvMax then
      { res with
        rejection_reasons := res.rejection_reasons ++
          [{ factor := "Loan-to-Value Ratio"
             severity := .Medium
             description := "LTV ratio of " ++ pct1Fmt ltv
               ++ " exceeds maximum allowed " ++ pct1Fmt ltvMax
             impact := "Higher collateral risk" }]
        alternative_offers := res.alternative_offers ++
          [{ type := "LTV Adjusted Loan"
             amount := a.property_valuation * ltvMax
             max_ltv := some (pct1Fmt ltvMax)
             reason := some "Maintains healthy loan-to-value ratio" }] }
    else res
  else res

/-- `_check_employment_stability`. -/
def checkEmploymentStability (a : AppData) (res : AnalysisResult) : AnalysisResult :=
  if a.monthly_salary < 30000 then
    { res with
      rejection_reasons := res.rejection_reasons ++
        [{ factor := "Income Level"
           severity := .Medium
           description := "Monthly salary below minimum threshold for this loan type"
           impact := "Limited repayment capacity" }]
      alternative_offers := res.alternative_offers ++
        [{ type := "Smaller Personal Loan"
           amount := min 500000 (a.monthly_salary * 10)
           tenure := some "36 months"
           purpose := some "Income-based smaller loan"
           features := some ["Lower amount", "Shorter tenure"] }] }
  else res

def severityStr : Severity → String
  | .Low => "Low"
  | .Medium => "Medium"
  | .High => "High"
  | .Critical => "Critical"

def reasonLine (r : RejectionReason) : String :=
  "🔴 " ++ r.description ++ " (Severity: " ++ severityStr r.severity ++ ")\n"

def recLine (rec : Recommendation) : String :=
  "• " ++ rec.description ++ " (Priority: " ++ rec.priority ++ ")\n"

def offerLine (o : AlternativeOffer) : String :=
  "• " ++ o.type ++ ": ₹" ++ commaFmt o.amount ++ "\n"

/-- The explanation string `_generate_explanation` renders from the
accumulator contents it is handed. -/
def explanationText (res : AnalysisResult) : String :=
  if res.rejection_reasons.isEmpty then
    "✅ Your application meets all our criteria! "
      ++ "Based on our analysis, your financial profile shows strong repayment capacity "
      ++ "and excellent creditworthiness. Congratulations!"
  else
    "After careful review of your application, here\x27s our assessment:\n\n"
      ++ String.join (res.rejection_reasons.map reasonLine)
      ++ (if res.recommendations.isEmpty then ""
          else "\n💡 We recommend the following actions:\n"
            ++ String.join (res.recommendations.map recLine))
      ++ (if res.alternative_offers.isEmpty then ""
          else "\n🎯 Alternative options available:\n"
            ++ String.join (res.alternative_offers.map offerLine))

/-- `_generate_explanation`. -/
def generateExplanation (res : AnalysisResult) : AnalysisResult :=
  { res with generated_explanation := explanationText res }

/-- The fixed "Credit Builder Loan" offer. -/
def creditBuilderOffer : AlternativeOffer :=
  { type := "Credit Builder Loan"
    amount := 50000
    tenure := some "12 months"
    interest_rate := some "12%"
    purpose := some "Build credit history"
    features := some ["Low amount", "Short tenure", "Credit reporting"] }

/-- The "Preferred Customer Loan" offer for a given salary. -/
def preferredCustomerOffer (salary : ℚ) : AlternativeOffer :=
  { type := "Preferred Customer Loan"
    amount := min 2000000 (salary * 24)
    tenure := some "84 months"
    interest_rate := some "7.5%"
    features := some ["Lower interest", "Longer tenure", "Flexible repayment"] }

/-- First profile rule of `_generate_alternative_offers`: credit builder
loan for lower scores (`cibil_score` read with default 0). -/
def addCreditBuilder (a : AppData) (res : AnalysisResult) : AnalysisResult :=
  if a.cibil_score.getD 0 < 700 ∧ a.monthly_salary > 40000 then
    { res with alternative_offers := res.alternative_offers ++ [creditBuilderOffer] }
  else res

/-- Second profile rule of `_generate_alternative_offers`: preferred
customer loan for good history. -/
def addPreferredCustomer (a : AppData) (res : AnalysisResult) : AnalysisResult :=
  if a.cibil_score.getD 0 > 750 ∧ a.monthly_salary > 80000 then
    { res with alternative_offers :=
        res.alternative_offers ++ [preferredCustomerOffer a.monthly_salary] }
  else res

/-- `_generate_alternative_offers` (the profile-driven offer generator):
the two rules in source order. -/
def generateAlternativeOffers (a : AppData) (res : AnalysisResult) : AnalysisResult :=
  addPreferredCustomer a (addCreditBuilder a res)

/-- The offers the profile-driven generator appends, in order. -/
def profileOffers (a : AppData) : List AlternativeOffer :=
  (if a.cibil_score.getD 0 < 700 ∧ a.monthly_salary > 40000 then
    [creditBuilderOffer] else [])
  ++ (if a.cibil_score.getD 0 > 750 ∧ a.monthly_salary > 80000 then
    [preferredCustomerOffer a.monthly_salary] else [])

/-- CIBIL contribution block of `_calculate_financial_health_score`. -/
def cibilContribution (c : ℤ) : ℤ :=
  if c ≥ 800 then 30
  else if c ≥ 750 then 20
  else if c ≥ 700 then 10
  else if c < 600 then -20
  else 0

/-- Income-stability contribution block. -/
def incomeContribution (salary : ℚ) : ℤ :=
  if salary ≥ 100000 then 20
  else if salary ≥ 50000 then 15
  else if salary ≥ 30000 then 10
  else -10

/-- Debt-to-income contribution block (only when salary is positive). -/
def dtiContribution (salary emi : ℚ) : ℤ :=
  if salary > 0 then
    let dti := emi / salary
    if dti < 1/5 then 15
    else if dti < 2/5 then 10
    else if dti > 3/5 then -15
    else 0
  else 0

/-- Loan-to-value contribution block (only when valuation is positive). -/
def ltvContribution (loan valuation : ℚ) : ℤ :=
  if valuation > 0 then
    let ltv := loan / valuation
    if ltv < 3/5 then 15
    else if ltv < 4/5 then 10
    else if ltv > 9/10 then -10
    else 0
  else 0

/-- The sequentially accumulated score of `_calculate_financial_health_score`
before the final clamp. -/
def rawFinancialHealthScore (a : AppData) : ℤ :=
  50 + cibilContribution (a.cibil_score.getD 0)
     + incomeContribution a.monthly_salary
     + dtiContribution a.monthly_salary a.existing_emi
     + ltvContribution a.loan_amount a.property_valuation
     + (if a.is_non_agricultural then 10 else 0)
     + (if !a.is_rented then 10 else 0)

/-- `_calculate_financial_health_score`: clamp to [0,100] and store. -/
def calculateFinancialHealthScore (a : AppData) (res : AnalysisResult) : AnalysisResult :=
  { res with financial_health_score := max 0 (min 100 (rawFinancialHealthScore a)) }

/-- `_determine_final_status`. -/
def determineFinalStatus (res : AnalysisResult) : AnalysisResult :=
  if res.rejection_reasons.any (fun r => r.severity == Severity.Critical) then
    { res with status := .REJECTED, risk_level := .VERY_HIGH }
  else if res.rejection_reasons.any (fun r => r.severity == Severity.High) then
    { res with status := .REJECTED, risk_level := .HIGH }
  else if !res.rejection_reasons.isEmpty then
    { res with status := .UNDER_REVIEW, risk_level := .MEDIUM }
  else
    { res with status := .APPROVED, risk_level := .LOW }

/-- Status resolution as the spec words it: a pure function of the
collected severities alone (used to compare `_determine_final_status`
against the spec's description). -/
def resolveStatus (sevs : List Severity) : AnalysisStatus × AnalysisRiskLevel :=
  if sevs.any (fun s => s == Severity.Critical) then (.REJECTED, .VERY_HIGH)
  else if sevs.any (fun s => s == Severity.High) then (.REJECTED, .HIGH)
  else if !sevs.isEmpty then (.UNDER_REVIEW, .MEDIUM)
  else (.APPROVED, .LOW)

/-- The accumulator state after the four rule checks, before any generator
runs. -/
def afterChecks (a : AppData) : AnalysisResult :=
  checkEmploymentStability a
    (checkLoanToValue a
      (checkLoanAffordability a
        (checkCreditProfile a initialAnalysis)))

/-- `analyze_application`: the four rule checks in order, then explanation,
then profile-driven offers, then score, then status, as in the source. -/
def analyzeApplication (a : AppData) : AnalysisResult :=
  determineFinalStatus
    (calculateFinancialHealthScore a
      (generateAlternativeOffers a
        (generateExplanation (afterChecks a))))

/-! ### Decision Pipeline (`ApplicationProcessor`)

The processor imports `Application`, `AIAnalysisReport` and `db` from a
`models` module and a `CreditRiskService`, none of which are in the
repository snapshot; their store/session/service semantics are modelled from
the spec (external collaborator contracts: get-by-id application store with
transactional commit/rollback, a credit-risk service that may fail or throw,
and a report store with get-or-create and field setters). -/

/-- Risk levels carried by an external credit-risk result. -/
inductive CreditRiskLevel where
  | LOW
  | MEDIUM
  | HIGH
deriving DecidableEq

/-- External credit-risk assessment record (`CreditRiskResult`). -/
structure CreditRiskResult where
  success : Bool
  risk_score : ℤ
  risk_level : CreditRiskLevel
  risk_category : String
deriving DecidableEq

/-- Modelled from the spec: the persisted `Application` row with the fields
the processor reads and writes (`models.Application` is not in the
snapshot). -/
structure DBApplication where
  id : ℕ
  status : String
  credit_risk_score : Option ℤ := none
  banking_behavior : Option String := none
  fraud_risk : Option String := none
  loan_amount : ℚ := 0
  monthly_salary : ℚ := 0
  cibil_score : Option ℤ := none
deriving DecidableEq

/-- Modelled from the spec: the persisted `AIAnalysisReport` row
(`models.AIAnalysisReport` is not in the snapshot); `none` fields represent
columns not yet set by any setter. -/
structure DBReport where
  id : ℕ
  application_id : ℕ
  rejection_reasons : Option (List RejectionReason) := none
  recommendations : Option (List Recommendation) := none
  alternative_offers : Option (List AlternativeOffer) := none
  financial_health_score : Option ℤ := none
  generated_explanation : Option String := none
deriving DecidableEq

/-- Modelled from the spec: the committed database state behind `db.session`
(application store plus report store). -/
structure Database where
  applications : List DBApplication
  reports : List DBReport
deriving DecidableEq

/-- Modelled from the spec: the external effects one `process_application`
run observes — the credit-risk service call (which may throw), a possible
exception thrown by the report store's rejection-reasons setter during AI
report generation, and a possible failure of the transactional commit. -/
structure PipelineEnv where
  creditRisk : Except String CreditRiskResult
  setRejectionReasonsError : Option String := none
  commitError : Option String := none

/-- The structured result dict returned by `process_application`. -/
structure ProcessResult where
  success : Bool
  error : Option String := none
  application_id : Option ℕ := none
  decision : Option String := none
  credit_risk : Option CreditRiskResult := none
  ai_report_id : Option ℕ := none
deriving DecidableEq

/-- Python truthiness test used by `if not application.banking_behavior`:
unset or empty string counts as falsy. -/
def isBlank : Option String → Bool
  | none => true
  | some s => s.isEmpty

/-- `_update_application_risk`. -/
def updateApplicationRisk (app : DBApplication) (crr : CreditRiskResult) : DBApplication :=
  if crr.success then
    let app1 := { app with credit_risk_score := some crr.risk_score }
    let app2 :=
      if isBlank app1.banking_behavior then
        { app1 with banking_behavior := some crr.risk_category }
      else app1
    if isBlank app2.fraud_risk then { app2 with fraud_risk := some "LOW" } else app2
  else
    { app with status := "MANUAL_REVIEW", credit_risk_score := none }

/-- `_assess_rejection_reasons`. -/
def assessRejectionReasons (app : DBApplication) (crr : CreditRiskResult) :
    List RejectionReason :=
  (if !crr.success then
    [{ factor := "Credit Assessment"
       severity := .High
       description := "Unable to complete credit risk assessment"
       impact := "Cannot evaluate creditworthiness" }]
  else if crr.risk_level == .HIGH then
    [{ factor := "Credit Risk"
       severity := .High
       description := "High credit risk detected (Score: " ++ toString crr.risk_score ++ ")"
       impact := "Increased default probability" }]
  else [])
  ++ (if app.loan_amount > app.monthly_salary * 60 then
    [{ factor := "Loan Affordability"
       severity := .Medium
       description := "Loan amount exceeds affordable limit"
       impact := "High debt-to-income ratio" }]
  else [])

/-- `_generate_recommendations`; `application.cibil_score and ... < 750`
uses Python truthiness, so a stored 0 or an unset score yields nothing. -/
def generateRecommendationsP (app : DBApplication) (crr : CreditRiskResult) :
    List Recommendation :=
  (if !crr.success then
    [{ action := "Manual Credit Review"
       priority := "High"
       description := "System credit assessment failed - requires manual review"
       timeline := "Immediate" }]
  else [])
  ++ (match app.cibil_score with
  | none => []
  | some c =>
    if c ≠ 0 ∧ c < 750 then
      [{ action := "Improve Credit Score"
         priority := "Medium"
         description := "Increase credit score above 750 for better rates"
         timeline := "3-6 months" }]
    else [])

/-- `_generate_alternative_offers` of the processor. -/
def generateAlternativeOffersP (app : DBApplication) : List AlternativeOffer :=
  if app.loan_amount > app.monthly_salary * 48 then
    [{ type := "Reduced Loan Amount"
       amount := app.monthly_salary * 36
       tenure := some "60 months"
       reason := some "Better aligned with income"
       improvement := some "Lower EMI burden" }]
  else []

/-- `_generate_explanation` of the processor. -/
def generateExplanationP (crr : CreditRiskResult)
    (reasons : List RejectionReason) : String :=
  if reasons.isEmpty then
    "Application meets all criteria. Recommended for approval."
  else
    "Application analysis completed. Key findings:\n\n"
      ++ (if crr.success then
            "Credit Risk: " ++ crr.risk_category
              ++ " (Score: " ++ toString crr.risk_score ++ "/100)\n"
          else "Credit Risk: Assessment Failed - Manual Review Required\n")
      ++ (if reasons.isEmpty then ""
          else "\nAreas needing improvement:\n"
            ++ String.join (reasons.map (fun r => "- " ++ r.description ++ "\n")))

/-- `_make_decision`: returns the mutated application and the decision
string. -/
def makeDecision (app : DBApplication) (crr : CreditRiskResult) :
    DBApplication × String :=
  if !crr.success then
    ({ app with status := "MANUAL_REVIEW" }, "MANUAL_REVIEW")
  else if crr.risk_level = .LOW ∧ crr.risk_score ≥ 70 then
    ({ app with status := "APPROVED" }, "APPROVED")
  else if crr.risk_level = .MEDIUM ∧ crr.risk_score ≥ 50 then
    ({ app with status := "MANUAL_REVIEW" }, "MANUAL_REVIEW")
  else
    ({ app with status := "REJECTED" }, "REJECTED")

/-- Replace the report row for the same application, or append a new one
(the session's view of the report store after an add/update). -/
def upsertReport (reports : List DBReport) (r : DBReport) : List DBReport :=
  if reports.any (fun x => x.application_id == r.application_id) then
    reports.map (fun x => if x.application_id == r.application_id then r else x)
  else reports ++ [r]

/-- `_generate_ai_analysis`: get-or-create the report row, add it to the
session, populate its fields through setters, and catch any exception
internally (returning `none` as the report while the already-added row stays
in the session). An exception in `set_rejection_reasons` is injected through
the environment. -/
def generateAIAnalysis (env : PipelineEnv) (app : DBApplication)
    (crr : CreditRiskResult) (reports : List DBReport) :
    Option DBReport × List DBReport :=
  let report0 :=
    match reports.find? (fun r => r.application_id == app.id) with
    | some r => r
    | none =>
      { id := reports.length + 1
        application_id := app.id }
  match env.setRejectionReasonsError with
  | some _ =>
    (none, upsertReport reports report0)
  | none =>
    let reasons := assessRejectionReasons app crr
    let report1 := { report0 with rejection_reasons := some reasons }
    let report2 := { report1 with recommendations := some (generateRecommendationsP app crr) }
    let report3 :=
      if !reasons.isEmpty then
        { report2 with alternative_offers := some (generateAlternativeOffersP app) }
      else report2
    let report4 := { report3 with financial_health_score := some crr.risk_score }
    let report5 := { report4 with generated_explanation := some (generateExplanationP crr reasons) }
    (some report5, upsertReport reports report5)

/-- Commit the session: write back the mutated application row and the
pending report rows. -/
def commitSession (db : Database) (app : DBApplication)
    (reports : List DBReport) : Database :=
  { applications := db.applications.map (fun x => if x.id == app.id then app else x)
    reports := reports }

/-- `process_application`: fetch, assess, update, generate report, decide,
commit; any exception propagating to the outer handler rolls the session
back and yields a structured failure. -/
def processApplication (env : PipelineEnv) (db : Database)
    (applicationId : ℕ) : ProcessResult × Database :=
  match db.applications.find? (fun x => x.id == applicationId) with
  | none => ({ success := false, error := some "Application not found" }, db)
  | some application =>
    match env.creditRisk with
    | .error e => ({ success := false, error := some e }, db)
    | .ok crr =>
      let app1 := updateApplicationRisk application crr
      let (aiReport, pendingReports) := generateAIAnalysis env app1 crr db.reports
      let (app2, decision) := makeDecision app1 crr
      match env.commitError with
      | some e => ({ success := false, error := some e }, db)
      | none =>
        ({ success := true
           application_id := some applicationId
           decision := some decision
           credit_risk := some crr
           ai_report_id := aiReport.map (fun r => r.id) },
         commitSession db app2 pendingReports)

/-- Decision resolution as the spec words it (used to compare
`_make_decision` against the spec's description). -/
def decisionPerSpec (crr : CreditRiskResult) : String :=
  if crr.success = false then "MANUAL_REVIEW"
  else if crr.risk_level = CreditRiskLevel.LOW ∧ crr.risk_score ≥ 70 then "APPROVED"
  else if crr.risk_level = CreditRiskLevel.MEDIUM ∧ crr.risk_score ≥ 50 then "MANUAL_REVIEW"
  else "REJECTED"

/-! ### Concrete inputs used by witnesses and counterexamples -/

/-- Applicant with a CIBIL score of 600 and salary 50,000: the credit-score
rule fires (so an explanation with findings is rendered) and the profile
generator later appends a Credit Builder Loan. -/
def exC1 : AppData := { cibil_score := some 600, monthly_salary := 50000 }

/-- Application row, store and environment for exercising the pipeline. -/
def appC2 : DBApplication :=
  { id := 1, status := "PENDING", loan_amount := 500000
    monthly_salary := 50000, cibil_score := some 720 }

def dbC2 : Database := { applications := [appC2], reports := [] }

def crrC2 : CreditRiskResult :=
  { success := true, risk_score := 80, risk_level := .LOW, risk_category := "GOOD" }

/-- Environment in which the report store's rejection-reasons setter throws
during AI report generation. -/
def envC2 : PipelineEnv :=
  { creditRisk := .ok crrC2, setRejectionReasonsError := some "serialization failure" }

/-- Environment in which the external credit-risk service itself throws. -/
def envC2fail : PipelineEnv := { creditRisk := .error "credit service unavailable" }

/-- An accumulator holding one Critical and one High rejection reason. -/
def resC4 : AnalysisResult :=
  { initialAnalysis with
    rejection_reasons :=
      [{ factor := "Fraud Signal", severity := .Critical
         description := "presumed fraudulent documents", impact := "cannot proceed" },
       { factor := "Credit History", severity := .High
         description := "no verifiable credit data", impact := "cannot assess" }] }

/-- Salary 30,000 with no existing EMI and a 2,000,000 loan request: the
affordability rule fires and appends a Reduced Loan Amount offer. -/
def exC6 : AppData := { monthly_salary := 30000, loan_amount := 2000000 }

/-- The spec's own worked example input. -/
def exC7 : AppData :=
  { cibil_score := some 780, monthly_salary := 25000, loan_amount := 200000 }

/-- The spec's claimed clamp-extreme input: CIBIL 300, salary 0, everything
else absent or zero. -/
def exC8 : AppData := { cibil_score := some 300 }

/-- Applicant with no CIBIL score on file. -/
def exC9 : AppData :=
  { monthly_salary := 60000, existing_emi := 10000
    loan_amount := 100000, property_valuation := 200000 }

/-- Applicant with no CIBIL score and salary above 40,000. -/
def exC10 : AppData := { monthly_salary := 45000 }

/-! ### Structural lemmas about the analysis pipeline -/

theorem determineFinalStatus_preserves (res : AnalysisResult) :
    (determineFinalStatus res).rejection_reasons = res.rejection_reasons ∧
    (determineFinalStatus res).alternative_offers = res.alternative_offers ∧
    (determineFinalStatus res).generated_explanation = res.generated_explanation ∧
    (determineFinalStatus res).financial_health_score = res.financial_health_score := by
  unfold determineFinalStatus
  split_ifs <;> exact ⟨rfl, rfl, rfl, rfl⟩

theorem addCreditBuilder_offers (a : AppData) (res : AnalysisResult) :
    (addCreditBuilder a res).alternative_offers
      = res.alternative_offers
        ++ (if a.cibil_score.getD 0 < 700 ∧ a.monthly_salary > 40000 then
              [creditBuilderOffer] else []) := by
  unfold addCreditBuilder
  split_ifs <;> simp

theorem addCreditBuilder_preserves (a : AppData) (res : AnalysisResult) :
    (addCreditBuilder a res).rejection_reasons = res.rejection_reasons ∧
    (addCreditBuilder a res).recommendations = res.recommendations ∧
    (addCreditBuilder a res).generated_explanation = res.generated_explanation := by
  unfold addCreditBuilder
  split_ifs <;> exact ⟨rfl, rfl, rfl⟩

theorem addPreferredCustomer_offers (a : AppData) (res : AnalysisResult) :
    (addPreferredCustomer a res).alternative_offers
      = res.alternative_offers
        ++ (if a.cibil_score.getD 0 > 750 ∧ a.monthly_salary > 80000 then
              [preferredCustomerOffer a.monthly_salary] else []) := by
  unfold addPreferredCustomer
  split_ifs <;> simp

theorem addPreferredCustomer_preserves (a : AppData) (res : AnalysisResult) :
    (addPreferredCustomer a res).rejection_reasons = res.rejection_reasons ∧
    (addPreferredCustomer a res).recommendations = res.recommendations ∧
    (addPreferredCustomer a res).generated_explanation = res.generated_explanation := by
  unfold addPreferredCustomer
  split_ifs <;> exact ⟨rfl, rfl, rfl⟩

theorem generateAlternativeOffers_offers (a : AppData) (res : AnalysisResult) :
    (generateAlternativeOffers a res).alternative_offers
      = res.alternative_offers ++ profileOffers a := by
  unfold generateAlternativeOffers profileOffers
  rw [addPreferredCustomer_offers, addCreditBuilder_offers, List.append_assoc]

theorem generateAlternativeOffers_explanation (a : AppData) (res : AnalysisResult) :
    (generateAlternativeOffers a res).generated_explanation
      = res.generated_explanation := by
  unfold generateAlternativeOffers
  rw [(addPreferredCustomer_preserves a _).2.2, (addCreditBuilder_preserves a res).2.2]

theorem generateAlternativeOffers_reasons (a : AppData) (res : AnalysisResult) :
    (generateAlternativeOffers a res).rejection_reasons
      = res.rejection_reasons := by
  unfold generateAlternativeOffers
  rw [(addPreferredCustomer_preserves a _).1, (addCreditBuilder_preserves a res).1]

theorem analyzeApplication_score (a : AppData) :
    (analyzeApplication a).financial_health_score
      = max 0 (min 100 (rawFinancialHealthScore a)) := by
  unfold analyzeApplication
  rw [(determineFinalStatus_preserves _).2.2.2]
  rfl

theorem analyzeApplication_explanation (a : AppData) :
    (analyzeApplication a).generated_explanation
      = explanationText (afterChecks a) := by
  unfold analyzeApplication
  rw [(determineFinalStatus_preserves _).2.2.1]
  show (generateAlternativeOffers a (generateExplanation (afterChecks a))).generated_explanation
    = explanationText (afterChecks a)
  rw [generateAlternativeOffers_explanation]
  rfl

theorem analyzeApplication_offers (a : AppData) :
    (analyzeApplication a).alternative_offers
      = (afterChecks a).alternative_offers ++ profileOffers a := by
  unfold analyzeApplication
  rw [(determineFinalStatus_preserves _).2.1]
  show (generateAlternativeOffers a (generateExplanation (afterChecks a))).alternative_offers
    = (afterChecks a).alternative_offers ++ profileOffers a
  rw [generateAlternativeOffers_offers]
  rfl

theorem analyzeApplication_reasons (a : AppData) :
    (analyzeApplication a).rejection_reasons
      = (afterChecks a).rejection_reasons := by
  unfold analyzeApplication
  rw [(determineFinalStatus_preserves _).1]
  show (generateAlternativeOffers a (generateExplanation (afterChecks a))).rejection_reasons
    = (afterChecks a).rejection_reasons
  rw [generateAlternativeOffers_reasons]
  rfl

theorem determineFinalStatus_resolve (res : AnalysisResult) :
    ((determineFinalStatus res).status, (determineFinalStatus res).risk_level)
      = resolveStatus (res.rejection_reasons.map (fun r => r.severity)) := by
  have hmap : ∀ s : Severity,
      ((res.rejection_reasons.map (fun r => r.severity)).any (fun x => x == s))
        = res.rejection_reasons.any (fun r => r.severity == s) := by
    intro s
    induction res.rejection_reasons with
    | nil => rfl
    | cons r t ih => simp [List.any_cons, ih]
  have hempty : (res.rejection_reasons.map (fun r => r.severity)).isEmpty
      = res.rejection_reasons.isEmpty := by
    cases res.rejection_reasons <;> rfl
  unfold determineFinalStatus resolveStatus
  rw [hmap, hmap, hempty]
  split_ifs <;> rfl

/-! ### Claim theorems -/

/-- C3: for every application input, the financial_health_score stored in
the AnalysisResult by the Score Calculator is an integer in the closed
interval [0, 100]. -/
theorem score_in_range (a : AppData) :
    0 ≤ (analyzeApplication a).financial_health_score ∧
    (analyzeApplication a).financial_health_score ≤ 100 := by
  rw [analyzeApplication_score]
  exact ⟨le_max_left 0 _, max_le (by norm_num) (min_le_left _ _)⟩

/-- C4: the Status Resolver is a pure function of the collected
rejection-reason severities obeying a strict severity-priority cascade:
any Critical reason gives REJECTED and VERY_HIGH regardless of the other
reasons, else any High gives REJECTED and HIGH, else any remaining reasons
give UNDER_REVIEW and MEDIUM, else APPROVED and LOW. -/
theorem status_resolver_cascade (res : AnalysisResult) :
    ((∃ r ∈ res.rejection_reasons, r.severity = Severity.Critical) →
      (determineFinalStatus res).status = AnalysisStatus.REJECTED ∧
      (determineFinalStatus res).risk_level = AnalysisRiskLevel.VERY_HIGH) ∧
    ((¬ ∃ r ∈ res.rejection_reasons, r.severity = Severity.Critical) →
      (∃ r ∈ res.rejection_reasons, r.severity = Severity.High) →
      (determineFinalStatus res).status = AnalysisStatus.REJECTED ∧
      (determineFinalStatus res).risk_level = AnalysisRiskLevel.HIGH) ∧
    ((¬ ∃ r ∈ res.rejection_reasons, r.severity = Severity.Critical) →
      (¬ ∃ r ∈ res.rejection_reasons, r.severity = Severity.High) →
      res.rejection_reasons ≠ [] →
      (determineFinalStatus res).status = AnalysisStatus.UNDER_REVIEW ∧
      (determineFinalStatus res).risk_level = AnalysisRiskLevel.MEDIUM) ∧
    (res.rejection_reasons = [] →
      (determineFinalStatus res).status = AnalysisStatus.APPROVED ∧
      (determineFinalStatus res).risk_level = AnalysisRiskLevel.LOW) ∧
    (∀ res2 : AnalysisResult,
      res.rejection_reasons.map (fun r => r.severity)
        = res2.rejection_reasons.map (fun r => r.severity) →
      (determineFinalStatus res).status = (determineFinalStatus res2).status ∧
      (determineFinalStatus res).risk_level = (determineFinalStatus res2).risk_level) := by
  have hany : ∀ s : Severity,
      (res.rejection_reasons.any (fun r => r.severity == s)) = true
        ↔ ∃ r ∈ res.rejection_reasons, r.severity = s := by
    intro s
    simp [List.any_eq_true]
  have hne : res.rejection_reasons ≠ [] →
      (!res.rejection_reasons.isEmpty) = true := by
    intro h
    cases hl : res.rejection_reasons with
    | nil => exact absurd hl h
    | cons x t => rfl
  refine ⟨?_, ?_, ?_, ?_, ?_⟩
  · intro h
    unfold determineFinalStatus
    rw [if_pos ((hany _).mpr h)]
    exact ⟨rfl, rfl⟩
  · intro hnc hh
    unfold determineFinalStatus
    rw [if_neg (fun hx => hnc ((hany _).mp hx)), if_pos ((hany _).mpr hh)]
    exact ⟨rfl, rfl⟩
  · intro hnc hnh hn
    unfold determineFinalStatus
    rw [if_neg (fun hx => hnc ((hany _).mp hx)),
      if_neg (fun hx => hnh ((hany _).mp hx)), if_pos (hne hn)]
    exact ⟨rfl, rfl⟩
  · intro h
    simp [determineFinalStatus, h]
  · intro res2 hsev
    have h1 := determineFinalStatus_resolve res
    have h2 := determineFinalStatus_resolve res2
    rw [hsev] at h1
    have h3 := h1.trans h2.symm
    exact ⟨congrArg Prod.fst h3, congrArg Prod.snd h3⟩

/-- C4 witness: with a Critical and a High reason collected, the resolver
returns REJECTED and VERY_HIGH. -/
theorem status_resolver_cascade_witness :
    (determineFinalStatus resC4).status = AnalysisStatus.REJECTED ∧
    (determineFinalStatus resC4).risk_level = AnalysisRiskLevel.VERY_HIGH :=
  (status_resolver_cascade resC4).1 (by decide)

/-- C5: the pipeline decision is MANUAL_REVIEW when the external assessment
failed; else APPROVED for LOW risk with score at least 70; else
MANUAL_REVIEW for MEDIUM risk with score at least 50; else REJECTED (and
the same value is written back to the application status). -/
theorem final_decision_resolution (app : DBApplication) (crr : CreditRiskResult) :
    (makeDecision app crr).2 = decisionPerSpec crr ∧
    (makeDecision app crr).1.status = decisionPerSpec crr := by
  rcases crr with ⟨s, sc, rl, cat⟩
  cases s <;>
    · unfold makeDecision decisionPerSpec
      split_ifs <;> simp_all

set_option maxRecDepth 4000

/-- C1 (amended): in `analyze_application` the Explanation Generator runs
before the profile-driven Offer Generator (then the Score Calculator, then
the Status Resolver), so the stored explanation is the one rendered from
the post-rule-check accumulator, the final offers are the rule-check offers
followed by the profile-driven offers, the final status and risk level are
resolved from the final severities, and the score is the clamped raw
score. -/
theorem explanation_before_profile_offers (a : AppData) :
    (analyzeApplication a).generated_explanation = explanationText (afterChecks a) ∧
    (analyzeApplication a).alternative_offers
      = (afterChecks a).alternative_offers ++ profileOffers a ∧
    ((analyzeApplication a).status, (analyzeApplication a).risk_level)
      = resolveStatus ((afterChecks a).rejection_reasons.map (fun r => r.severity)) ∧
    (analyzeApplication a).financial_health_score
      = max 0 (min 100 (rawFinancialHealthScore a)) := by
  refine ⟨analyzeApplication_explanation a, analyzeApplication_offers a, ?_,
    analyzeApplication_score a⟩
  have h := determineFinalStatus_resolve
    (calculateFinancialHealthScore a
      (generateAlternativeOffers a (generateExplanation (afterChecks a))))
  have hr : (calculateFinancialHealthScore a
      (generateAlternativeOffers a (generateExplanation (afterChecks a)))).rejection_reasons
        = (afterChecks a).rejection_reasons := by
    show (generateAlternativeOffers a (generateExplanation (afterChecks a))).rejection_reasons
      = (afterChecks a).rejection_reasons
    rw [generateAlternativeOffers_reasons]
    rfl
  rw [hr] at h
  exact h

/-- C1 counterexample: at `exC1` the final accumulator holds the
profile-driven Credit Builder Loan offer, but the stored explanation is not
the explanation rendered from the final accumulator contents — the offer
appended after `_generate_explanation` ran is missing from it, refuting the
claim that the Offer Generator runs first and that the explanation reflects
every collected offer. -/
theorem offer_order_cex :
    (analyzeApplication exC1).alternative_offers = [creditBuilderOffer] ∧
    (analyzeApplication exC1).generated_explanation
      ≠ explanationText (analyzeApplication exC1) := by
  constructor
  · with_unfolding_all rfl
  · with_unfolding_all decide

/-- Inverting the EMI formula for a target EMI and feeding the resulting
principal back through the formula reproduces the target exactly (over
exact rational arithmetic). -/
theorem emiFor_suggestedPrincipal (t : ℚ) : emiFor (suggestedPrincipal t) = t := by
  have hq : (1 : ℚ) < 1 + monthlyInterest := by norm_num [monthlyInterest]
  have h1 : (1 : ℚ) < (1 + monthlyInterest) ^ tenureMonths :=
    one_lt_pow₀ hq (by norm_num [tenureMonths])
  have hA : ((1 + monthlyInterest) ^ tenureMonths - 1 : ℚ) ≠ 0 :=
    sub_ne_zero.mpr (ne_of_gt h1)
  have hB : (monthlyInterest : ℚ) ≠ 0 := by norm_num [monthlyInterest]
  have hC : ((1 + monthlyInterest) ^ tenureMonths : ℚ) ≠ 0 :=
    ne_of_gt (lt_trans one_pos h1)
  unfold emiFor suggestedPrincipal
  field_simp
  ring

/-- C6: whenever the Affordability Check appends a "Reduced Loan Amount"
offer (positive EMI headroom, requested EMI above it), the offer's amount
fed back through the EMI formula at the same rate and tenure yields exactly
total_emi_obligation, hence an EMI less than or equal to it. -/
theorem reduced_offer_roundtrip (a : AppData) (res : AnalysisResult)
    (h1 : 0 < totalEmiObligation a)
    (h2 : calculatedEmi a > totalEmiObligation a) :
    (checkLoanAffordability a res).alternative_offers
      = res.alternative_offers ++ [reducedLoanOffer a] ∧
    emiFor (reducedLoanOffer a).amount = totalEmiObligation a ∧
    emiFor (reducedLoanOffer a).amount ≤ totalEmiObligation a := by
  have heq : emiFor (reducedLoanOffer a).amount = totalEmiObligation a := by
    show emiFor (suggestedPrincipal (totalEmiObligation a)) = totalEmiObligation a
    exact emiFor_suggestedPrincipal (totalEmiObligation a)
  refine ⟨?_, heq, le_of_eq heq⟩
  unfold checkLoanAffordability
  rw [if_neg (not_le.mpr h1), if_pos h2]

/-- C6 witness: at salary 30,000, no existing EMI and a 2,000,000 request
the check fires and the round-trip bound holds. -/
theorem reduced_offer_roundtrip_witness :
    (checkLoanAffordability exC6 initialAnalysis).alternative_offers
      = [reducedLoanOffer exC6] ∧
    emiFor (reducedLoanOffer exC6).amount ≤ totalEmiObligation exC6 := by
  have h := reduced_offer_roundtrip exC6 initialAnalysis
    (by with_unfolding_all decide) (by with_unfolding_all decide)
  exact ⟨by simpa [initialAnalysis] using h.1, h.2.2⟩

/-- C7: the self-contained evaluation is deterministic — identical inputs
produce identical AnalysisResult values. -/
theorem analysis_deterministic (a b : AppData) (h : a = b) :
    analyzeApplication a = analyzeApplication b := by
  rw [h]

/-- C7 witness: determinism at the spec's worked-example input. -/
theorem analysis_deterministic_witness :
    analyzeApplication exC7 = analyzeApplication exC7 :=
  analysis_deterministic exC7 exC7 rfl

/-- C8 counterexample: at CIBIL 300 and salary 0 (everything else absent)
the stored financial health score is not 0 — the absent is_rented flag
still earns the residence-stability bonus, so the clamp's lower extreme is
not reached. -/
theorem extreme_score_cex :
    (analyzeApplication exC8).financial_health_score ≠ 0 := by
  with_unfolding_all decide

/-- C8 (amended): at CIBIL 300 and salary 0 (everything else absent) the
Score Calculator stores 30 (50 base − 20 CIBIL − 10 income + 10 residence
stability), not the clamp's lower extreme. -/
theorem extreme_score_value :
    (analyzeApplication exC8).financial_health_score = 30 := by
  with_unfolding_all rfl

/-- C9: an absent cibil_score is read back as 0, which takes the below-600
branch of the CIBIL block, contributing −20 to the score; the whole
analysis of such an input coincides with the analysis of the same input
with cibil_score set to 0. -/
theorem missing_cibil_penalty (a : AppData) (h : a.cibil_score = none) :
    cibilContribution (a.cibil_score.getD 0) = -20 ∧
    rawFinancialHealthScore a
      = rawFinancialHealthScore { a with cibil_score := some 650 } - 20 ∧
    analyzeApplication a = analyzeApplication { a with cibil_score := some 0 } := by
  obtain ⟨c, sal, emi, loan, val, na, rent, fn, ln2, cn⟩ := a
  change c = none at h
  subst h
  refine ⟨rfl, ?_, rfl⟩
  simp only [rawFinancialHealthScore]
  norm_num [cibilContribution]
  omega

/-- C9 witness: the penalty at a concrete application with no CIBIL
score. -/
theorem missing_cibil_penalty_witness :
    cibilContribution (exC9.cibil_score.getD 0) = -20 ∧
    rawFinancialHealthScore exC9
      = rawFinancialHealthScore { exC9 with cibil_score := some 650 } - 20 ∧
    analyzeApplication exC9 = analyzeApplication { exC9 with cibil_score := some 0 } :=
  missing_cibil_penalty exC9 rfl

/-- C10: with cibil_score absent (defaulted to 0, hence below 700) and
salary above 40,000, the profile-driven generator appends the Credit
Builder Loan offer, which therefore appears among the final offers. -/
theorem credit_builder_on_missing_cibil (a : AppData) (res : AnalysisResult)
    (h1 : a.cibil_score = none) (h2 : a.monthly_salary > 40000) :
    (generateAlternativeOffers a res).alternative_offers
      = res.alternative_offers ++ [creditBuilderOffer] ∧
    creditBuilderOffer ∈ (analyzeApplication a).alternative_offers := by
  have hp : profileOffers a = [creditBuilderOffer] := by
    simp [profileOffers, h1, h2]
  constructor
  · rw [generateAlternativeOffers_offers, hp]
  · rw [analyzeApplication_offers, hp]
    simp

/-- C10 witness: the Credit Builder Loan appears for a missing CIBIL score
and salary 45,000. -/
theorem credit_builder_on_missing_cibil_witness :
    (generateAlternativeOffers exC10 initialAnalysis).alternative_offers
      = [creditBuilderOffer] ∧
    creditBuilderOffer ∈ (analyzeApplication exC10).alternative_offers := by
  have h := credit_builder_on_missing_cibil exC10 initialAnalysis rfl
    (by norm_num [exC10])
  exact ⟨by simpa [initialAnalysis] using h.1, h.2⟩

/-- C2 (amended): an exception from the external credit-risk service, or a
failure of the commit itself, makes `process_application` return a
structured failure and leaves the stores unchanged; exceptions raised
inside the AI-report generation step are outside this guarantee (they are
caught internally and the pipeline commits anyway — see the
counterexample). -/
theorem pipeline_rollback_on_external_failure (env : PipelineEnv) (db : Database)
    (i : ℕ)
    (h : (∃ e, env.creditRisk = Except.error e) ∨ env.commitError.isSome = true) :
    (processApplication env db i).1.success = false ∧
    (processApplication env db i).1.error.isSome = true ∧
    (processApplication env db i).2 = db := by
  rcases h with ⟨e, he⟩ | hc
  · cases hf : db.applications.find? (fun x => x.id == i) with
    | none => simp [processApplication, hf]
    | some app => simp [processApplication, hf, he]
  · cases hf : db.applications.find? (fun x => x.id == i) with
    | none => simp [processApplication, hf]
    | some app =>
      cases hcr : env.creditRisk with
      | error e2 => simp [processApplication, hf, hcr]
      | ok crr =>
        cases hce : env.commitError with
        | none =>
          rw [hce] at hc
          simp at hc
        | some e2 => simp [processApplication, hf, hcr, hce]

/-- C2 witness: a throwing credit-risk service yields a structured failure
and an unchanged database. -/
theorem pipeline_rollback_on_external_failure_witness :
    (processApplication envC2fail dbC2 1).1.success = false ∧
    (processApplication envC2fail dbC2 1).1.error.isSome = true ∧
    (processApplication envC2fail dbC2 1).2 = dbC2 :=
  pipeline_rollback_on_external_failure envC2fail dbC2 1
    (Or.inl ⟨"credit service unavailable", rfl⟩)

/-- C2 counterexample: with an exception raised inside AI report generation
(step 4) the pipeline still reports success and commits — the committed
report store now holds a row whose analysis fields were never set, a
partial write that refutes the claimed all-steps rollback. -/
theorem pipeline_partial_commit_cex :
    envC2.setRejectionReasonsError.isSome = true ∧
    (processApplication envC2 dbC2 1).1.success = true ∧
    (processApplication envC2 dbC2 1).2.reports = [{ id := 1, application_id := 1 }] ∧
    (processApplication envC2 dbC2 1).2 ≠ dbC2 := by
  refine ⟨rfl, ?_, ?_, ?_⟩
  · with_unfolding_all rfl
  · with_unfolding_all rfl
  · with_unfolding_all decide

end CasaFlow
